import Mathlib

/-!
Shallow embedding of `quartparser.py` (the webargs–Quart request-argument
parser shim) and proofs about its location resolvers, body-decode cache and
error translation.

Conventions of the embedding:
* Python dict-like request attributes (`args`, `headers`, `cookies`, `files`,
  `view_args`, form data) are association lists `List (String × JVal)`.
* The decoded JSON document is a `JVal`; Python `None` (the decoded JSON
  `null`) is `JVal.jnull`.
* `await req.body`, `await req.form` and `await req.json` are modelled as
  fields of the `Request` record: the raw body text, the parsed form data,
  and the outcome of the JSON decode (`Except JSONDecodeError JVal`).
* The per-parser `self._cache` dict is threaded explicitly: each cached
  resolver takes the cache before the call and returns the cache after it,
  together with a `Bool` recording whether the underlying body decode
  (`await req.form` / `await req.json`) was invoked during the call.
* `quart.abort` raising an `HTTPException` that the `abort` helper decorates
  is modelled by returning the decorated exception as a value (`HTTPErr`).
-/

/-- A JSON value, as produced by the JSON decoder.  `jnull` corresponds to
Python `None` (the decoding of the JSON text `null`). -/
inductive JVal where
  | jnull
  | jbool (b : Bool)
  | jnum (n : Int)
  | jstr (s : String)
  | jarr (elems : List JVal)
  | jobj (fields : List (String × JVal))

/-- Dict-like request data: an association list from names to values. -/
abbrev Dict := List (String × JVal)

/-- The result of raw extraction: either the webargs `missing` sentinel or a
value.  `missing` models `webargs.core.missing`. -/
inductive Extracted where
  | missing
  | val (v : JVal)

/-- Models the external `webargs.core.get_value` on dict-like data: look the
name up, return the `missing` sentinel when absent. -/
def get_value (data : Dict) (name : String) : Extracted :=
  match data.lookup name with
  | some v => Extracted.val v
  | none => Extracted.missing

/-- Models `webargs.core.get_value` applied to a decoded JSON document
(`allow_many_nested=True` call site): a JSON object supports named lookup,
any other document yields the `missing` sentinel. -/
def get_value_json (data : JVal) (name : String) : Extracted :=
  match data with
  | JVal.jobj fields => get_value fields name
  | _ => Extracted.missing

/-- Python `str.endswith`, as a suffix test on the character list. -/
def str_ends_with (s sfx : String) : Bool :=
  sfx.data.isSuffixOf s.data

/-- Models the external `webargs.core.is_json`: a mimetype is a JSON mimetype
when it is `application/json` or ends in `+json` (and is non-empty). -/
def core_is_json (mimetype : String) : Bool :=
  mimetype ≠ "" && (mimetype == "application/json" || str_ends_with mimetype "+json")

/-- `webargs.core.Parser.DEFAULT_VALIDATION_STATUS`, the default status code
for validation errors. -/
def DEFAULT_VALIDATION_STATUS : Nat := 422

/-- A `json.JSONDecodeError`: only its `doc` attribute (the document text
being parsed) is inspected by the shim. -/
structure JSONDecodeError where
  doc : String
deriving DecidableEq

/-- A `marshmallow.ValidationError` as seen by `handle_error`: carries the
per-field message mapping `error.messages`. -/
structure ValidationError where
  messages : List (String × List String)
deriving DecidableEq

/-- The originating library exception attached to an abort (`exc=` keyword of
the `abort` helper). -/
inductive Exc where
  | jsonDecode (e : JSONDecodeError)
  | validation (e : ValidationError)
deriving DecidableEq

/-- The keyword arguments the shim passes to `abort`, stored on the raised
exception as `err.data`. -/
structure AbortData where
  messages : List (String × List String)
  schema : Option String := none
  headers : Option (List (String × String)) := none
deriving DecidableEq

/-- The decorated `HTTPException` raised by the module-level `abort` helper:
the HTTP status code, the keyword arguments (`err.data`), and the originating
exception (`err.exc`). -/
structure HTTPErr where
  status : Nat
  data : AbortData
  exc : Option Exc
deriving DecidableEq

/-- The module-level `abort` helper: raise an `HTTPException` for the status
code, attaching the keyword arguments as `err.data` and the originating
exception as `err.exc`.  Raising is modelled by returning the exception. -/
def abort (http_status_code : Nat) (exc : Option Exc) (kwargs : AbortData) : HTTPErr :=
  { status := http_status_code, data := kwargs, exc := exc }

/-- Python truthiness of `x or default` for an optional integer: `None` and
`0` are falsy, any other integer is returned as is. -/
def pyOr (x : Option Nat) (default : Nat) : Nat :=
  match x with
  | some n => if n = 0 then default else n
  | none => default

/-- A Quart request, read-only for the shim: mimetype, raw body text
(`await req.body`; `""` is the empty body), the outcome of the JSON decode
(`await req.json`), parsed form data (`await req.form`; Quart always returns
a multidict, never `None`), and the dict-like attributes. -/
structure Request where
  mimetype : String := ""
  body : String := ""
  json : Except JSONDecodeError JVal := Except.error { doc := "" }
  form : Dict := []
  args : Dict := []
  headers : Dict := []
  cookies : Dict := []
  files : Dict := []
  view_args : Dict := []

/-- `is_json_request(req)`: whether the request mimetype is a JSON mimetype. -/
def is_json_request (req : Request) : Bool :=
  core_is_json req.mimetype

/-- The parser's `self._cache` dict, with its two keys `"post"` and `"json"`.
`some v` means the key is present with stored value `v`; for the `"json"` key
the stored value may itself be Python `None` (`JVal.jnull`). -/
structure Cache where
  post : Option Dict := none
  json : Option JVal := none

/-- The fresh cache of a request whose parse has not yet touched the body. -/
def emptyCache : Cache := {}

/-- Models `json_data = self._cache.get("json")` followed by the
`if json_data is None` test: Python cannot distinguish an absent `"json"`
key from a stored `None` (the decoded JSON `null` document), so both make
the test succeed and force a re-decode. -/
def json_cache_lookup (c : Cache) : Option JVal :=
  match c.json with
  | some JVal.jnull => none
  | some v => some v
  | none => none

/-- The outcome of `parse_json`: a normally returned extraction, or an abort
raised through `handle_invalid_json_error`. -/
inductive JsonResult where
  | ok (v : Extracted)
  | aborted (err : HTTPErr)

namespace QuartParser

/-- `parse_view_args`: pull a value from the request's `view_args`. -/
def parse_view_args (req : Request) (name : String) : Extracted :=
  get_value req.view_args name

/-- `parse_querystring`: pull a querystring value from the request. -/
def parse_querystring (req : Request) (name : String) : Extracted :=
  get_value req.args name

/-- `parse_headers`: pull a value from the header data. -/
def parse_headers (req : Request) (name : String) : Extracted :=
  get_value req.headers name

/-- `parse_cookies`: pull a value from the cookiejar. -/
def parse_cookies (req : Request) (name : String) : Extracted :=
  get_value req.cookies name

/-- `parse_files`: pull a file from the request. -/
def parse_files (req : Request) (name : String) : Extracted :=
  get_value req.files name

/-- `parse_form`: pull a form value from the request.  Looks up the `"post"`
cache entry; on a miss, awaits `req.form` (decode invoked, third component
`true`) and stores it; then `get_value` on the cached form data.  Quart's
`req.form` is always a multidict, never `None`, so a stored entry is never
conflated with an absent one. -/
def parse_form (req : Request) (name : String) (c : Cache) :
    Extracted × Cache × Bool :=
  match c.post with
  | some post_data => (get_value post_data name, c, false)
  | none => (get_value req.form name, { c with post := some req.form }, true)

/-- `handle_invalid_json_error`: abort with status 400, the originating
decode error, and the fixed message mapping. -/
def handle_invalid_json_error (error : JSONDecodeError) (req : Request) : HTTPErr :=
  abort 400 (some (Exc.jsonDecode error))
    { messages := [("json", ["Invalid JSON body."])] }

/-- `parse_json`: pull a json value from the request.  Awaits the raw body;
when the body is empty or the mimetype is not JSON, returns the `missing`
sentinel.  Otherwise consults the `"json"` cache entry; on a miss it awaits
`req.json` (decode invoked, third component `true`): a decode failure with
empty `doc` yields `missing`, any other failure aborts through
`handle_invalid_json_error`, and a success is stored in the cache.  Finally
`get_value` on the document. -/
def parse_json (req : Request) (name : String) (c : Cache) :
    JsonResult × Cache × Bool :=
  if req.body = "" ∨ ¬ is_json_request req then
    (JsonResult.ok Extracted.missing, c, false)
  else
    match json_cache_lookup c with
    | some json_data => (JsonResult.ok (get_value_json json_data name), c, false)
    | none =>
      match req.json with
      | Except.error e =>
        if e.doc = "" then (JsonResult.ok Extracted.missing, c, true)
        else (JsonResult.aborted (handle_invalid_json_error e req), c, true)
      | Except.ok json_data =>
        (JsonResult.ok (get_value_json json_data name),
          { c with json := some json_data }, true)

/-- `handle_error`: abort with the caller's status code if supplied and
truthy, else `DEFAULT_VALIDATION_STATUS`; attach the validation error as
`exc` and its per-field messages (plus schema and headers) as `data`. -/
def handle_error (error : ValidationError) (req : Request) (schema : String)
    (error_status_code : Option Nat)
    (error_headers : Option (List (String × String))) : HTTPErr :=
  abort (pyOr error_status_code DEFAULT_VALIDATION_STATUS)
    (some (Exc.validation error))
    { messages := error.messages, schema := some schema, headers := error_headers }

end QuartParser

/-- Request A of the shared-cache scenario: JSON body decoding to the object
with field `x = 1`. -/
def reqA : Request :=
  { mimetype := "application/json", body := "bodyA",
    json := Except.ok (JVal.jobj [("x", JVal.jnum 1)]) }

/-- Request B of the shared-cache scenario: JSON body decoding to the object
with field `x = 2`. -/
def reqB : Request :=
  { mimetype := "application/json", body := "bodyB",
    json := Except.ok (JVal.jobj [("x", JVal.jnum 2)]) }

/-- A request whose non-empty JSON body decodes to the JSON `null` document
(body text `null`), so Quart's `req.json` returns Python `None`. -/
def reqNull : Request :=
  { mimetype := "application/json", body := "null",
    json := Except.ok JVal.jnull }

/-- A request with a non-empty, syntactically invalid JSON body: the decode
fails with a non-empty document text. -/
def reqBad : Request :=
  { mimetype := "application/json", body := "not json",
    json := Except.error { doc := "not json" } }

/-- A request carrying no data in any location: every dict-like attribute is
empty and the JSON body decodes to the empty object. -/
def reqBare : Request :=
  { mimetype := "application/json", body := "emptyobj",
    json := Except.ok (JVal.jobj []) }

/- Helper lemmas about the cache lookup and the branches of `parse_json`. -/

/-- An absent `"json"` cache entry makes the cache lookup miss. -/
theorem json_cache_lookup_of_json_none {c : Cache} (h : c.json = none) :
    json_cache_lookup c = none := by
  unfold json_cache_lookup
  rw [h]

/-- A stored non-null document makes the cache lookup hit. -/
theorem json_cache_lookup_of_json_some {c : Cache} {v : JVal} (h : c.json = some v)
    (hv : v ≠ JVal.jnull) : json_cache_lookup c = some v := by
  unfold json_cache_lookup
  rw [h]
  cases v
  · exact absurd rfl hv
  all_goals rfl

/-- `parse_json` on a request that passes the body/mimetype guard, with a
cache miss and a successful decode: the document is stored and queried, and
the decode is invoked. -/
theorem parse_json_decode_success (req : Request) (name : String) (c : Cache) (v : JVal)
    (hguard : ¬(req.body = "" ∨ ¬ is_json_request req))
    (hc : json_cache_lookup c = none) (hj : req.json = Except.ok v) :
    QuartParser.parse_json req name c =
      (JsonResult.ok (get_value_json v name), { c with json := some v }, true) := by
  unfold QuartParser.parse_json
  rw [if_neg hguard, hc, hj]

/-- `parse_json` on a request that passes the body/mimetype guard with a
cache hit: the cached document is queried, the decode is not invoked and the
cache is unchanged. -/
theorem parse_json_cache_hit (req : Request) (name : String) (c : Cache) (jd : JVal)
    (hguard : ¬(req.body = "" ∨ ¬ is_json_request req))
    (hc : json_cache_lookup c = some jd) :
    QuartParser.parse_json req name c =
      (JsonResult.ok (get_value_json jd name), c, false) := by
  unfold QuartParser.parse_json
  rw [if_neg hguard, hc]

/-- `parse_json` on a request that fails the body/mimetype guard (empty body
or non-JSON mimetype): missing, no decode, cache untouched. -/
theorem parse_json_guard_missing (req : Request) (name : String) (c : Cache)
    (hguard : req.body = "" ∨ ¬ is_json_request req) :
    QuartParser.parse_json req name c = (JsonResult.ok Extracted.missing, c, false) := by
  unfold QuartParser.parse_json
  rw [if_pos hguard]

/- Claim theorems. -/

/-- C2: for every request whose raw body is empty, parsing a JSON-located
field returns the missing sentinel — no abort, no decode, cache untouched:
an empty JSON body is treated as no data supplied rather than as an error. -/
theorem parse_json_empty_body_is_missing (req : Request) (name : String) (c : Cache)
    (h : req.body = "") :
    QuartParser.parse_json req name c = (JsonResult.ok Extracted.missing, c, false) := by
  unfold QuartParser.parse_json
  rw [if_pos (Or.inl h)]

/-- C2 witness: a request with an empty body yields missing for a
JSON-located field. -/
theorem parse_json_empty_body_is_missing_witness :
    QuartParser.parse_json {} "name" emptyCache =
      (JsonResult.ok Extracted.missing, emptyCache, false) :=
  parse_json_empty_body_is_missing {} "name" emptyCache rfl

/-- C9: for every request whose mimetype is not a JSON mimetype, parsing a
JSON-located field returns the missing sentinel regardless of the body
content, without invoking the JSON decode and without error. -/
theorem parse_json_non_json_mimetype_is_missing (req : Request) (name : String) (c : Cache)
    (h : is_json_request req = false) :
    QuartParser.parse_json req name c = (JsonResult.ok Extracted.missing, c, false) := by
  unfold QuartParser.parse_json
  rw [if_pos (Or.inr (by rw [h]; exact Bool.false_ne_true))]

/-- C9 witness: a request with a non-empty body but a plain-text mimetype
yields missing for a JSON-located field. -/
theorem parse_json_non_json_mimetype_is_missing_witness :
    QuartParser.parse_json { mimetype := "text/plain", body := "data" } "name" emptyCache =
      (JsonResult.ok Extracted.missing, emptyCache, false) :=
  parse_json_non_json_mimetype_is_missing { mimetype := "text/plain", body := "data" }
    "name" emptyCache (by decide)

/-- C6: `parse_view_args` pulls the named value from the request's
`view_args` mapping: whenever `view_args` maps the name to a value, that
value is returned. -/
theorem parse_view_args_pulls_from_view_args (req : Request) (name : String) (v : JVal)
    (h : req.view_args.lookup name = some v) :
    QuartParser.parse_view_args req name = Extracted.val v := by
  unfold QuartParser.parse_view_args get_value
  rw [h]

/-- C6 witness: the route `/users/<id>` scenario — a request whose
`view_args` carry `id = 42` (request path `/users/42`) yields the value 42
for the `view_args`-located field `id`. -/
theorem parse_view_args_pulls_from_view_args_witness :
    QuartParser.parse_view_args { view_args := [("id", JVal.jnum 42)] } "id" =
      Extracted.val (JVal.jnum 42) :=
  parse_view_args_pulls_from_view_args { view_args := [("id", JVal.jnum 42)] }
    "id" (JVal.jnum 42) rfl

/-- C8: every abort raised by the shim carries both the structured per-field
message mapping (in the exception's `data`) and the originating library
exception (in its `exc` attribute): `handle_error` attaches the validation
error and its messages, `handle_invalid_json_error` attaches the decode
error and the fixed mapping. -/
theorem aborts_carry_messages_and_exc (e : ValidationError) (req : Request)
    (schema : String) (esc : Option Nat) (hdrs : Option (List (String × String)))
    (je : JSONDecodeError) (req2 : Request) :
    (QuartParser.handle_error e req schema esc hdrs).data.messages = e.messages ∧
    (QuartParser.handle_error e req schema esc hdrs).exc = some (Exc.validation e) ∧
    (QuartParser.handle_invalid_json_error je req2).data.messages =
      [("json", ["Invalid JSON body."])] ∧
    (QuartParser.handle_invalid_json_error je req2).exc = some (Exc.jsonDecode je) :=
  ⟨rfl, rfl, rfl, rfl⟩

/-- C4: when field-level validation fails, `handle_error` aborts with status
422 when the caller supplies no override status code, and with the caller's
(nonzero) status code when one is supplied; either way the abort carries the
per-field message mapping. -/
theorem handle_error_status_code (e : ValidationError) (req : Request) (schema : String)
    (hdrs : Option (List (String × String))) :
    ((QuartParser.handle_error e req schema none hdrs).status = 422 ∧
      (QuartParser.handle_error e req schema none hdrs).data.messages = e.messages) ∧
    ∀ n : Nat, 0 < n →
      (QuartParser.handle_error e req schema (some n) hdrs).status = n ∧
      (QuartParser.handle_error e req schema (some n) hdrs).data.messages = e.messages := by
  refine ⟨⟨rfl, rfl⟩, fun n hn => ⟨?_, rfl⟩⟩
  show (if n = 0 then DEFAULT_VALIDATION_STATUS else n) = n
  rw [if_neg hn.ne']

/-- C4 witness: with no override the abort status is 422; with an override
of 400 it is 400. -/
theorem handle_error_status_code_witness :
    (QuartParser.handle_error { messages := [("name", ["Missing data for required field."])] }
      {} "HelloSchema" none none).status = 422 ∧
    (QuartParser.handle_error { messages := [("name", ["Missing data for required field."])] }
      {} "HelloSchema" (some 400) none).status = 400 :=
  ⟨(handle_error_status_code { messages := [("name", ["Missing data for required field."])] }
      {} "HelloSchema" none).1.1,
    ((handle_error_status_code { messages := [("name", ["Missing data for required field."])] }
      {} "HelloSchema" none).2 400 (by decide)).1⟩

/-- C1: for every request whose raw body is non-empty, whose mimetype is a
JSON mimetype, and whose body fails JSON decoding with a non-empty decoded
document, parsing a JSON-located field (with the json cache entry absent, as
it is for the whole parse since failures never populate it) aborts with HTTP
status 400 and the fixed message mapping `json = [Invalid JSON body.]`,
distinct from the 422 of per-field validation errors. -/
theorem parse_json_malformed_body_aborts_400 (req : Request) (name : String) (c : Cache)
    (e : JSONDecodeError) (hbody : req.body ≠ "") (hmt : is_json_request req = true)
    (hcache : c.json = none) (hjson : req.json = Except.error e) (hdoc : e.doc ≠ "") :
    QuartParser.parse_json req name c =
      (JsonResult.aborted (QuartParser.handle_invalid_json_error e req), c, true) ∧
    (QuartParser.handle_invalid_json_error e req).status = 400 ∧
    (QuartParser.handle_invalid_json_error e req).data.messages =
      [("json", ["Invalid JSON body."])] ∧
    (QuartParser.handle_invalid_json_error e req).status ≠ DEFAULT_VALIDATION_STATUS := by
  refine ⟨?_, rfl, rfl, fun h => ?_⟩
  · unfold QuartParser.parse_json
    rw [if_neg (by simp [hbody, hmt]), json_cache_lookup_of_json_none hcache, hjson]
    exact if_neg hdoc
  · simp [QuartParser.handle_invalid_json_error, abort, DEFAULT_VALIDATION_STATUS] at h

/-- C1 witness: a request with the non-empty invalid JSON body `not json`
aborts with status 400 and the fixed message mapping. -/
theorem parse_json_malformed_body_aborts_400_witness :
    QuartParser.parse_json reqBad "name" emptyCache =
      (JsonResult.aborted
        (QuartParser.handle_invalid_json_error { doc := "not json" } reqBad),
        emptyCache, true) ∧
    (QuartParser.handle_invalid_json_error { doc := "not json" } reqBad).status = 400 ∧
    (QuartParser.handle_invalid_json_error { doc := "not json" } reqBad).data.messages =
      [("json", ["Invalid JSON body."])] ∧
    (QuartParser.handle_invalid_json_error { doc := "not json" } reqBad).status ≠
      DEFAULT_VALIDATION_STATUS :=
  parse_json_malformed_body_aborts_400 reqBad "name" emptyCache { doc := "not json" }
    (by decide) (by decide) rfl rfl (by decide)

/-- C10: `parse_json` stores a decoded document in the cache only when JSON
decoding succeeds: whenever the decode outcome is an error the cache is left
unchanged, and whenever the cache changes at all the decode succeeded and
the new cache holds exactly the decoded document. -/
theorem parse_json_cache_only_on_success (req : Request) (name : String) (c : Cache) :
    (∀ e, req.json = Except.error e → (QuartParser.parse_json req name c).2.1 = c) ∧
    ((QuartParser.parse_json req name c).2.1 ≠ c →
      ∃ v, req.json = Except.ok v ∧
        (QuartParser.parse_json req name c).2.1 = { c with json := some v }) := by
  by_cases hguard : req.body = "" ∨ ¬ is_json_request req
  · rw [parse_json_guard_missing req name c hguard]
    exact ⟨fun _ _ => rfl, fun h => absurd rfl h⟩
  · cases hc : json_cache_lookup c with
    | some jd =>
      rw [parse_json_cache_hit req name c jd hguard hc]
      exact ⟨fun _ _ => rfl, fun h => absurd rfl h⟩
    | none =>
      cases hj : req.json with
      | error e =>
        have herr : QuartParser.parse_json req name c =
            if e.doc = "" then (JsonResult.ok Extracted.missing, c, true)
            else (JsonResult.aborted (QuartParser.handle_invalid_json_error e req), c, true) := by
          unfold QuartParser.parse_json
          rw [if_neg hguard, hc, hj]
        rw [herr]
        by_cases hdoc : e.doc = ""
        · rw [if_pos hdoc]
          exact ⟨fun _ _ => rfl, fun h => absurd rfl h⟩
        · rw [if_neg hdoc]
          exact ⟨fun _ _ => rfl, fun h => absurd rfl h⟩
      | ok v =>
        rw [parse_json_decode_success req name c v hguard hc hj]
        exact ⟨fun e' he' => Except.noConfusion he', fun _ => ⟨v, rfl, rfl⟩⟩

/-- C10 witness: a decode failure (non-empty invalid body) leaves the fresh
cache unchanged. -/
theorem parse_json_cache_only_on_success_witness :
    (QuartParser.parse_json reqBad "name" emptyCache).2.1 = emptyCache :=
  (parse_json_cache_only_on_success reqBad "name" emptyCache).1 { doc := "not json" } rfl

/-- C3 (amended): form content is decoded at most once per request, and a
JSON extraction that invoked the decode populates the cache so that every
subsequent JSON extraction reuses it — provided the decoded document is not
the JSON null document.  (When the document is null, the stored Python
`None` is indistinguishable from an absent cache entry, so the decode is
re-invoked; see the counterexample.) -/
theorem body_decode_reused_once_cached (req : Request) (n1 n2 : String) (c : Cache)
    (v : JVal) (hjson : req.json = Except.ok v) (hv : v ≠ JVal.jnull) :
    (QuartParser.parse_form req n2 (QuartParser.parse_form req n1 c).2.1).2.2 = false ∧
    ((QuartParser.parse_json req n1 c).2.2 = true →
      (QuartParser.parse_json req n2 (QuartParser.parse_json req n1 c).2.1).2.2 = false) := by
  obtain ⟨cp, cj⟩ := c
  constructor
  · cases cp <;> rfl
  · intro hinv
    by_cases hguard : req.body = "" ∨ ¬ is_json_request req
    · rw [parse_json_guard_missing req n1 ⟨cp, cj⟩ hguard] at hinv
      simp at hinv
    · cases hc : json_cache_lookup ⟨cp, cj⟩ with
      | some jd =>
        rw [parse_json_cache_hit req n1 ⟨cp, cj⟩ jd hguard hc] at hinv
        simp at hinv
      | none =>
        rw [parse_json_decode_success req n1 ⟨cp, cj⟩ v hguard hc hjson,
          parse_json_cache_hit req n2 ⟨cp, some v⟩ v hguard
            (json_cache_lookup_of_json_some rfl hv)]

/-- C3 witness: a request whose JSON body decodes to the object with field
`x = 1`: the second form extraction and the second JSON extraction both skip
the underlying decode. -/
theorem body_decode_reused_once_cached_witness :
    (QuartParser.parse_form reqA "y" (QuartParser.parse_form reqA "x" emptyCache).2.1).2.2
      = false ∧
    (QuartParser.parse_json reqA "y" (QuartParser.parse_json reqA "x" emptyCache).2.1).2.2
      = false := by
  have h := body_decode_reused_once_cached reqA "x" "y" emptyCache
    (JVal.jobj [("x", JVal.jnum 1)]) rfl (fun hh => JVal.noConfusion hh)
  exact ⟨h.1, h.2 rfl⟩

/-- C3 counterexample: the claim "the first extraction populates the cache
and every subsequent extraction of the same kind reuses the cached
structure" fails on a request whose non-empty JSON body is the text `null`:
the decode succeeds with the null document, the cache entry stores Python
`None`, the next extraction's `is None` check mistakes it for an absent
entry, and the decode is invoked a second time. -/
theorem json_null_document_decoded_twice :
    (QuartParser.parse_json reqNull "x" emptyCache).2.2 = true ∧
    (QuartParser.parse_json reqNull "x"
      (QuartParser.parse_json reqNull "x" emptyCache).2.1).2.2 = true :=
  ⟨rfl, rfl⟩

/-- C5: the decode cache is an attribute of the parser object, and the
module-level `parser = QuartParser()` singleton is shared by every request;
when request B's JSON extraction runs against the cache that request A's
extraction populated (as happens when their parses interleave on the shared
singleton), B observes A's cached body content — the value 1 from A's body —
and never decodes its own body, which from a fresh cache would yield 2. -/
theorem shared_cache_leaks_between_requests :
    (QuartParser.parse_json reqB "x" (QuartParser.parse_json reqA "x" emptyCache).2.1).1 =
      JsonResult.ok (Extracted.val (JVal.jnum 1)) ∧
    (QuartParser.parse_json reqB "x" (QuartParser.parse_json reqA "x" emptyCache).2.1).2.2
      = false ∧
    (QuartParser.parse_json reqB "x" emptyCache).1 =
      JsonResult.ok (Extracted.val (JVal.jnum 2)) :=
  ⟨rfl, rfl, rfl⟩

/-- C7: every location resolver (query string, form, JSON body, headers,
cookies, view_args, files) returns the missing sentinel — rather than
raising — on a request in which the named value is absent from that
location; the only state the cached resolvers touch is the decode cache
(threaded explicitly, the request itself being read-only in the embedding). -/
theorem resolvers_missing_when_value_absent (req : Request) (name : String) (c : Cache)
    (v : JVal)
    (hq : req.args.lookup name = none) (hh : req.headers.lookup name = none)
    (hck : req.cookies.lookup name = none) (hf : req.files.lookup name = none)
    (hva : req.view_args.lookup name = none) (hfm : req.form.lookup name = none)
    (hpost : c.post = none) (hjc : c.json = none)
    (hj : req.json = Except.ok v) (hvn : get_value_json v name = Extracted.missing) :
    QuartParser.parse_querystring req name = Extracted.missing ∧
    QuartParser.parse_headers req name = Extracted.missing ∧
    QuartParser.parse_cookies req name = Extracted.missing ∧
    QuartParser.parse_files req name = Extracted.missing ∧
    QuartParser.parse_view_args req name = Extracted.missing ∧
    (QuartParser.parse_form req name c).1 = Extracted.missing ∧
    (QuartParser.parse_json req name c).1 = JsonResult.ok Extracted.missing := by
  refine ⟨?_, ?_, ?_, ?_, ?_, ?_, ?_⟩
  · unfold QuartParser.parse_querystring get_value
    rw [hq]
  · unfold QuartParser.parse_headers get_value
    rw [hh]
  · unfold QuartParser.parse_cookies get_value
    rw [hck]
  · unfold QuartParser.parse_files get_value
    rw [hf]
  · unfold QuartParser.parse_view_args get_value
    rw [hva]
  · unfold QuartParser.parse_form
    rw [hpost]
    show get_value req.form name = Extracted.missing
    unfold get_value
    rw [hfm]
  · by_cases hguard : req.body = "" ∨ ¬ is_json_request req
    · rw [parse_json_guard_missing req name c hguard]
    · rw [parse_json_decode_success req name c v hguard
        (json_cache_lookup_of_json_none hjc) hj, hvn]

/-- C7 witness: a request carrying no data in any location (its JSON body
decoding to the empty object) yields the missing sentinel from every
resolver for the field `q`, the JSON one without aborting. -/
theorem resolvers_missing_when_value_absent_witness :
    QuartParser.parse_querystring reqBare "q" = Extracted.missing ∧
    QuartParser.parse_headers reqBare "q" = Extracted.missing ∧
    QuartParser.parse_cookies reqBare "q" = Extracted.missing ∧
    QuartParser.parse_files reqBare "q" = Extracted.missing ∧
    QuartParser.parse_view_args reqBare "q" = Extracted.missing ∧
    (QuartParser.parse_form reqBare "q" emptyCache).1 = Extracted.missing ∧
    (QuartParser.parse_json reqBare "q" emptyCache).1 = JsonResult.ok Extracted.missing :=
  resolvers_missing_when_value_absent reqBare "q" emptyCache (JVal.jobj [])
    rfl rfl rfl rfl rfl rfl rfl rfl rfl rfl
